import Mathlib

set_option maxRecDepth 100000

/-!  Verification of the investment-comparison core of
`investment_comp_app.py`: the real-estate calculator, the stock
calculator, and the derived risk/payback metrics.  Python float
arithmetic is idealised as exact rational arithmetic; exceptions
raised by Python (`ZeroDivisionError` on an exact zero denominator,
`IndexError` on indexing an empty list) are modelled with `Except`. -/

namespace RentalStock

/-- Exceptions that the Python source can raise while computing. -/
inductive PyError where
  | zeroDivisionError
  | indexError
  deriving DecidableEq

/-- The sidebar inputs of `investment_comp_app.py` (lines 23-39),
bundled into an immutable parameter record. -/
structure InvestmentParameters where
  purchase_price : ℚ
  down_payment_percent : ℚ
  annual_interest_rate : ℚ
  loan_term_years : ℕ
  monthly_rental_income : ℚ
  operating_expenses_percent : ℚ
  appreciation_rate : ℚ
  closing_costs_percent : ℚ
  selling_costs_percent : ℚ
  holding_period_years : ℕ
  initial_stock_investment : ℚ
  expected_annual_return_rate : ℚ
  std_dev_stocks : ℚ
  inflation_rate : ℚ
  deriving DecidableEq

/-- The default sidebar values of the app. -/
def defaultParams : InvestmentParameters where
  purchase_price := 300000
  down_payment_percent := 20
  annual_interest_rate := 4
  loan_term_years := 30
  monthly_rental_income := 2000
  operating_expenses_percent := 30
  appreciation_rate := 3
  closing_costs_percent := 5
  selling_costs_percent := 6
  holding_period_years := 5
  initial_stock_investment := 75000
  expected_annual_return_rate := 8
  std_dev_stocks := 15
  inflation_rate := 2

/-- Line 45: `down_payment = purchase_price * down_payment_percent / 100`. -/
def down_payment (p : InvestmentParameters) : ℚ :=
  p.purchase_price * p.down_payment_percent / 100

/-- Line 46: `loan_amount = purchase_price - down_payment`. -/
def loan_amount (p : InvestmentParameters) : ℚ :=
  p.purchase_price - down_payment p

/-- Line 49: `monthly_interest_rate = annual_interest_rate / 12 / 100`. -/
def monthly_interest_rate (p : InvestmentParameters) : ℚ :=
  p.annual_interest_rate / 12 / 100

/-- Line 50: `number_of_payments = loan_term_years * 12`. -/
def number_of_payments (p : InvestmentParameters) : ℕ :=
  p.loan_term_years * 12

/-- Lines 51-52: the monthly mortgage payment
`M = loan_amount * (r * (1 + r) ** n) / ((1 + r) ** n - 1)`. -/
def M (p : InvestmentParameters) : ℚ :=
  loan_amount p *
      (monthly_interest_rate p * (1 + monthly_interest_rate p) ^ number_of_payments p) /
    ((1 + monthly_interest_rate p) ^ number_of_payments p - 1)

/-- Line 53: `annual_mortgage_payment = M * 12`. -/
def annual_mortgage_payment (p : InvestmentParameters) : ℚ :=
  M p * 12

/-- Line 56: `annual_rental_income = monthly_rental_income * 12`. -/
def annual_rental_income (p : InvestmentParameters) : ℚ :=
  p.monthly_rental_income * 12

/-- Line 57: `operating_expenses = annual_rental_income * operating_expenses_percent / 100`. -/
def operating_expenses (p : InvestmentParameters) : ℚ :=
  annual_rental_income p * p.operating_expenses_percent / 100

/-- Line 58: `NOI = annual_rental_income - operating_expenses`. -/
def NOI (p : InvestmentParameters) : ℚ :=
  annual_rental_income p - operating_expenses p

/-- Line 59: `annual_cash_flow = NOI - annual_mortgage_payment`. -/
def annual_cash_flow (p : InvestmentParameters) : ℚ :=
  NOI p - annual_mortgage_payment p

/-- Line 62: `closing_costs = purchase_price * closing_costs_percent / 100`. -/
def closing_costs (p : InvestmentParameters) : ℚ :=
  p.purchase_price * p.closing_costs_percent / 100

/-- Line 63: `initial_cash_investment = down_payment + closing_costs`. -/
def initial_cash_investment (p : InvestmentParameters) : ℚ :=
  down_payment p + closing_costs p

/-- Line 66: `cash_on_cash_return = (annual_cash_flow / initial_cash_investment) * 100`. -/
def cash_on_cash_return (p : InvestmentParameters) : ℚ :=
  annual_cash_flow p / initial_cash_investment p * 100

/-- `npf.npv(rate, values)` computes `sum(values[t] / (1 + rate) ** t)`;
the accumulator `t` is the index of the head of the remaining list. -/
def npvAux {K : Type} [DivisionRing K] (rate : K) : List K → ℕ → K
  | [], _ => 0
  | v :: vs, t => v / (1 + rate) ^ t + npvAux rate vs (t + 1)

/-- Net present value of a cash-flow list, as `numpy_financial.npv` computes it. -/
def npv {K : Type} [DivisionRing K] (rate : K) (values : List K) : K :=
  npvAux rate values 0

/-- The mutable state of the year-by-year loop of
`calculate_real_estate_investment` (lines 69-83). -/
structure REState where
  property_value : ℚ
  mortgage_balance : ℚ
  equity_list : List ℚ
  property_value_list : List ℚ
  mortgage_balance_list : List ℚ
  annual_cash_flow_list : List ℚ
  deriving DecidableEq

/-- Lines 69-74: the loop state before the first iteration. -/
def reState0 (p : InvestmentParameters) : REState where
  property_value := p.purchase_price
  mortgage_balance := loan_amount p
  equity_list := []
  property_value_list := []
  mortgage_balance_list := []
  annual_cash_flow_list := []

/-- Lines 76-83: one iteration of the `for year in range(1, holding_period_years + 1)` loop. -/
def reStep (p : InvestmentParameters) (s : REState) : REState :=
  let property_value := s.property_value * (1 + p.appreciation_rate / 100)
  let mortgage_balance := s.mortgage_balance * (1 + monthly_interest_rate p) ^ (12 : ℕ) - M p * 12
  { property_value := property_value
    mortgage_balance := mortgage_balance
    equity_list := s.equity_list ++ [property_value - mortgage_balance]
    property_value_list := s.property_value_list ++ [property_value]
    mortgage_balance_list := s.mortgage_balance_list ++ [mortgage_balance]
    annual_cash_flow_list := s.annual_cash_flow_list ++ [annual_cash_flow p] }

/-- The loop state after `n` iterations. -/
def reLoop (p : InvestmentParameters) : ℕ → REState
  | 0 => reState0 p
  | n + 1 => reStep p (reLoop p n)

/-- The dictionary returned by `calculate_real_estate_investment` (lines 97-109),
except for the `IRR` entry, which is produced by the external
`numpy_financial.irr` routine and modelled separately. -/
structure RealEstateResults where
  annual_cash_flow : ℚ
  initial_cash_investment : ℚ
  cash_on_cash_return : ℚ
  equity_at_sale : ℚ
  NPV : ℚ
  equity_list : List ℚ
  property_value_list : List ℚ
  mortgage_balance_list : List ℚ
  annual_cash_flow_list : List ℚ
  cash_flows : List ℚ
  deriving DecidableEq

/-- Lines 43-111: `calculate_real_estate_investment`.  The two exact-zero
denominators that make Python raise `ZeroDivisionError` (the amortization
denominator on line 52 and `initial_cash_investment` on line 66), and the
`annual_cash_flow_list[-1]` on line 90 that raises `IndexError` on an empty
list, are modelled with `Except.error`. -/
def calculate_real_estate_investment (p : InvestmentParameters) :
    Except PyError RealEstateResults :=
  if (1 + monthly_interest_rate p) ^ number_of_payments p - 1 = 0 then
    .error .zeroDivisionError
  else if initial_cash_investment p = 0 then
    .error .zeroDivisionError
  else
    let s := reLoop p p.holding_period_years
    let selling_costs := s.property_value * p.selling_costs_percent / 100
    let equity_at_sale := s.property_value - s.mortgage_balance - selling_costs
    match s.annual_cash_flow_list.getLast? with
    | none => .error .indexError
    | some last =>
      let cash_flows :=
        -initial_cash_investment p :: (s.annual_cash_flow_list.dropLast ++ [last + equity_at_sale])
      let discount_rate := p.expected_annual_return_rate / 100
      .ok
        { annual_cash_flow := annual_cash_flow p
          initial_cash_investment := initial_cash_investment p
          cash_on_cash_return := cash_on_cash_return p
          equity_at_sale := equity_at_sale
          NPV := npv discount_rate cash_flows
          equity_list := s.equity_list
          property_value_list := s.property_value_list
          mortgage_balance_list := s.mortgage_balance_list
          annual_cash_flow_list := s.annual_cash_flow_list
          cash_flows := cash_flows }

/-- The dictionary returned by `calculate_stock_investment` (lines 128-134),
except for the external `IRR` entry. -/
structure StockResults where
  portfolio_values : List ℚ
  annual_returns : List ℚ
  NPV : ℚ
  cash_flows : List ℚ
  deriving DecidableEq

/-- Lines 115-120: the stock loop, returning
`(portfolio_values, annual_returns)` after `n` iterations.
`portfolio_values[-1]` is modelled with `getLastD` (the list is never empty). -/
def stockLoop (p : InvestmentParameters) : ℕ → List ℚ × List ℚ
  | 0 => ([p.initial_stock_investment], [])
  | n + 1 =>
    let s := stockLoop p n
    let annual_return := s.1.getLastD 0 * p.expected_annual_return_rate / 100
    (s.1 ++ [s.1.getLastD 0 + annual_return], s.2 ++ [annual_return])

/-- Lines 113-136: `calculate_stock_investment`. -/
def calculate_stock_investment (p : InvestmentParameters) : StockResults :=
  let s := stockLoop p p.holding_period_years
  let cash_flows := -p.initial_stock_investment :: s.2
  let discount_rate := p.expected_annual_return_rate / 100
  { portfolio_values := s.1
    annual_returns := s.2
    NPV := npv discount_rate cash_flows
    cash_flows := cash_flows }

/-- Line 232: `expected_return_real_estate = real_estate_results['IRR'] * 100`.
The IRR produced by `numpy_financial.irr` is passed in as an argument. -/
def expected_return_real_estate (irr : ℚ) : ℚ := irr * 100

/-- Line 234: `CV_real_estate = std_dev_real_estate / expected_return_real_estate`,
raising `ZeroDivisionError` on a zero denominator. -/
def CV_real_estate (std_dev_real_estate irr : ℚ) : Except PyError ℚ :=
  if expected_return_real_estate irr = 0 then .error .zeroDivisionError
  else .ok (std_dev_real_estate / expected_return_real_estate irr)

/-- Line 235: `CV_stocks = std_dev_stocks / expected_annual_return_rate`. -/
def CV_stocks (p : InvestmentParameters) : Except PyError ℚ :=
  if p.expected_annual_return_rate = 0 then .error .zeroDivisionError
  else .ok (p.std_dev_stocks / p.expected_annual_return_rate)

/-- Line 243: `real_return_real_estate = expected_return_real_estate - inflation_rate`. -/
def real_return_real_estate (irr : ℚ) (p : InvestmentParameters) : ℚ :=
  expected_return_real_estate irr - p.inflation_rate

/-- Line 244: `real_return_stocks = expected_annual_return_rate - inflation_rate`. -/
def real_return_stocks (p : InvestmentParameters) : ℚ :=
  p.expected_annual_return_rate - p.inflation_rate

/-- Line 252: `payback_period_real_estate = initial_cash_investment / annual_cash_flow`,
on the values stored in the real-estate results dictionary. -/
def payback_period_real_estate (icc acf : ℚ) : Except PyError ℚ :=
  if acf = 0 then .error .zeroDivisionError else .ok (icc / acf)

/-- Line 253: `annual_return_stock = initial_stock_investment * expected_annual_return_rate / 100`. -/
def annual_return_stock (p : InvestmentParameters) : ℚ :=
  p.initial_stock_investment * p.expected_annual_return_rate / 100

/-- Line 254: `payback_period_stock = initial_stock_investment / annual_return_stock`. -/
def payback_period_stock (p : InvestmentParameters) : Except PyError ℚ :=
  if annual_return_stock p = 0 then .error .zeroDivisionError
  else .ok (p.initial_stock_investment / annual_return_stock p)

/-! ### Closed forms for the loop state -/

/-- Property value after `y` loop iterations: the purchase price compounded
by the appreciation rate, per line 76. -/
def property_value (p : InvestmentParameters) (y : ℕ) : ℚ :=
  p.purchase_price * (1 + p.appreciation_rate / 100) ^ y

/-- Mortgage balance after `y` loop iterations, by the recurrence of line 79:
`balance_y = balance_(y-1) * (1 + r) ** 12 - M * 12`, starting from the loan amount. -/
def mortgage_balance (p : InvestmentParameters) : ℕ → ℚ
  | 0 => loan_amount p
  | y + 1 => mortgage_balance p y * (1 + monthly_interest_rate p) ^ (12 : ℕ) - M p * 12

lemma property_value_succ (p : InvestmentParameters) (y : ℕ) :
    property_value p (y + 1) = property_value p y * (1 + p.appreciation_rate / 100) := by
  simp [property_value, pow_succ, mul_assoc]

lemma reLoop_eq (p : InvestmentParameters) (n : ℕ) :
    reLoop p n =
      { property_value := property_value p n
        mortgage_balance := mortgage_balance p n
        equity_list :=
          (List.range n).map fun y => property_value p (y + 1) - mortgage_balance p (y + 1)
        property_value_list := (List.range n).map fun y => property_value p (y + 1)
        mortgage_balance_list := (List.range n).map fun y => mortgage_balance p (y + 1)
        annual_cash_flow_list := List.replicate n (annual_cash_flow p) } := by
  induction n with
  | zero => simp [reLoop, reState0, property_value, mortgage_balance]
  | succ n ih =>
      simp [reLoop, ih, reStep, List.range_succ, List.replicate_succ', ← property_value_succ,
        mortgage_balance]

/-- Selling costs at the end of the holding period (line 86). -/
def selling_costs (p : InvestmentParameters) : ℚ :=
  property_value p p.holding_period_years * p.selling_costs_percent / 100

/-- Equity at sale (line 87): final property value minus final mortgage
balance minus selling costs. -/
def equity_at_sale (p : InvestmentParameters) : ℚ :=
  property_value p p.holding_period_years - mortgage_balance p p.holding_period_years -
    selling_costs p

/-- The cash-flow list built on line 90. -/
def reCashFlows (p : InvestmentParameters) : List ℚ :=
  -initial_cash_investment p ::
    (List.replicate (p.holding_period_years - 1) (annual_cash_flow p) ++
      [annual_cash_flow p + equity_at_sale p])

/-- When no denominator is zero and the holding period is positive,
`calculate_real_estate_investment` succeeds with the closed-form results. -/
lemma calc_re_ok (p : InvestmentParameters)
    (hd : (1 + monthly_interest_rate p) ^ number_of_payments p - 1 ≠ 0)
    (hi : initial_cash_investment p ≠ 0) (hn : p.holding_period_years ≠ 0) :
    calculate_real_estate_investment p =
      .ok
        { annual_cash_flow := annual_cash_flow p
          initial_cash_investment := initial_cash_investment p
          cash_on_cash_return := cash_on_cash_return p
          equity_at_sale := equity_at_sale p
          NPV := npv (p.expected_annual_return_rate / 100) (reCashFlows p)
          equity_list :=
            (List.range p.holding_period_years).map fun y =>
              property_value p (y + 1) - mortgage_balance p (y + 1)
          property_value_list :=
            (List.range p.holding_period_years).map fun y => property_value p (y + 1)
          mortgage_balance_list :=
            (List.range p.holding_period_years).map fun y => mortgage_balance p (y + 1)
          annual_cash_flow_list :=
            List.replicate p.holding_period_years (annual_cash_flow p)
          cash_flows := reCashFlows p } := by
  obtain ⟨m, hm⟩ : ∃ m, p.holding_period_years = m + 1 :=
    ⟨p.holding_period_years - 1, (Nat.succ_pred_eq_of_pos (Nat.pos_of_ne_zero hn)).symm⟩
  simp only [calculate_real_estate_investment]
  rw [if_neg hd, if_neg hi]
  simp only [hm, reLoop_eq, List.replicate_succ', List.getLast?_concat, List.dropLast_concat]
  simp only [reCashFlows, equity_at_sale, selling_costs, hm, Nat.add_sub_cancel,
    List.replicate_succ']

/-- Portfolio value after `y` years of compounding at the expected return. -/
def portfolio_value (p : InvestmentParameters) (y : ℕ) : ℚ :=
  p.initial_stock_investment * (1 + p.expected_annual_return_rate / 100) ^ y

/-- The dollar return recorded in year `y + 1`:
the previous portfolio value times the expected return rate. -/
def stock_annual_return (p : InvestmentParameters) (y : ℕ) : ℚ :=
  portfolio_value p y * p.expected_annual_return_rate / 100

lemma stockLoop_eq (p : InvestmentParameters) (n : ℕ) :
    stockLoop p n =
      ((List.range (n + 1)).map (portfolio_value p),
        (List.range n).map (stock_annual_return p)) := by
  induction n with
  | zero => simp [stockLoop, portfolio_value, List.range_succ]
  | succ n ih =>
      have key :
          portfolio_value p n + portfolio_value p n * p.expected_annual_return_rate / 100 =
            portfolio_value p (n + 1) := by
        simp only [portfolio_value, pow_succ]
        ring
      simp [stockLoop, ih, List.range_succ, List.getLastD_concat, key, stock_annual_return]

/-- `npvAux` computes the tail of the standard discounted sum. -/
lemma npvAux_eq_sum {K : Type} [DivisionRing K] (rate : K) (l : List K) (t : ℕ) :
    npvAux rate l t = ∑ i ∈ Finset.range l.length, l.getD i 0 / (1 + rate) ^ (t + i) := by
  induction l generalizing t with
  | nil => simp [npvAux]
  | cons v vs ih =>
      rw [npvAux, ih (t + 1), List.length_cons, Finset.sum_range_succ']
      have hexp : ∀ i : ℕ, t + 1 + i = t + (i + 1) := by omega
      simp [hexp, add_comm]

/-- `npv` is the standard net present value:
the sum of `values[t] / (1 + rate) ^ t` over all indices `t`. -/
lemma npv_eq_sum {K : Type} [DivisionRing K] (rate : K) (l : List K) :
    npv rate l = ∑ i ∈ Finset.range l.length, l.getD i 0 / (1 + rate) ^ i := by
  simp [npv, npvAux_eq_sum]

lemma getD_map_range (f : ℕ → ℚ) {n y : ℕ} (hy : y < n) :
    ((List.range n).map f).getD y 0 = f y := by
  simp [List.getD_eq_getElem?_getD, List.getElem?_map, List.getElem?_range hy]

/-- Inversion for a successful real-estate computation: the guards all
passed and the result is the closed-form record. -/
lemma calc_re_inv (p : InvestmentParameters) (r : RealEstateResults)
    (h : calculate_real_estate_investment p = Except.ok r) :
    ((1 + monthly_interest_rate p) ^ number_of_payments p - 1 ≠ 0 ∧
        initial_cash_investment p ≠ 0 ∧ p.holding_period_years ≠ 0) ∧
      r =
        { annual_cash_flow := annual_cash_flow p
          initial_cash_investment := initial_cash_investment p
          cash_on_cash_return := cash_on_cash_return p
          equity_at_sale := equity_at_sale p
          NPV := npv (p.expected_annual_return_rate / 100) (reCashFlows p)
          equity_list :=
            (List.range p.holding_period_years).map fun y =>
              property_value p (y + 1) - mortgage_balance p (y + 1)
          property_value_list :=
            (List.range p.holding_period_years).map fun y => property_value p (y + 1)
          mortgage_balance_list :=
            (List.range p.holding_period_years).map fun y => mortgage_balance p (y + 1)
          annual_cash_flow_list :=
            List.replicate p.holding_period_years (annual_cash_flow p)
          cash_flows := reCashFlows p } := by
  by_cases hd : (1 + monthly_interest_rate p) ^ number_of_payments p - 1 = 0
  · simp [calculate_real_estate_investment, hd] at h
  by_cases hi : initial_cash_investment p = 0
  · simp [calculate_real_estate_investment, hd, hi] at h
  by_cases hn : p.holding_period_years = 0
  · simp [calculate_real_estate_investment, hd, hi, hn, reLoop, reState0] at h
  · rw [calc_re_ok p hd hi hn] at h
    exact ⟨⟨hd, hi, hn⟩, (Except.ok.inj h).symm⟩

/-- C1: the amortization computation.  `loan_amount` is the purchase price
less the percentage down payment; the monthly payment follows the standard
fixed-rate amortization formula with `r = annual_rate / 12 / 100` and
`n = loan_term_years * 12` (whose denominator is nonzero for a positive rate
and term), and the annual mortgage payment is `12 * M`; at the default
parameters the loan is 240000 and `M` is within 0.01 of 1145.80. -/
theorem claim1_amortization (p : InvestmentParameters)
    (hr : 0 < p.annual_interest_rate) (ht : 0 < p.loan_term_years) :
    loan_amount p = p.purchase_price - p.purchase_price * p.down_payment_percent / 100 ∧
      monthly_interest_rate p = p.annual_interest_rate / 12 / 100 ∧
      number_of_payments p = p.loan_term_years * 12 ∧
      (1 + monthly_interest_rate p) ^ number_of_payments p - 1 ≠ 0 ∧
      M p =
        loan_amount p *
            (monthly_interest_rate p * (1 + monthly_interest_rate p) ^ number_of_payments p) /
          ((1 + monthly_interest_rate p) ^ number_of_payments p - 1) ∧
      annual_mortgage_payment p = 12 * M p ∧
      loan_amount defaultParams = 240000 ∧
      M defaultParams - 5729 / 5 < 1 / 100 ∧ -(1 / 100) < M defaultParams - 5729 / 5 := by
  refine ⟨rfl, rfl, rfl, ?_, rfl, by rw [annual_mortgage_payment, mul_comm], ?_, ?_, ?_⟩
  · have hmir : 0 < monthly_interest_rate p := by
      have : (0 : ℚ) < 12 * 100 := by norm_num
      simpa [monthly_interest_rate, div_div] using div_pos hr this
    have hpow : 1 < (1 + monthly_interest_rate p) ^ number_of_payments p := by
      refine one_lt_pow₀ (by linarith) ?_
      simp [number_of_payments]
      omega
    exact sub_ne_zero_of_ne (ne_of_gt hpow)
  · norm_num [loan_amount, down_payment, defaultParams]
  · norm_num [M, loan_amount, down_payment, monthly_interest_rate, number_of_payments,
      defaultParams]
  · norm_num [M, loan_amount, down_payment, monthly_interest_rate, number_of_payments,
      defaultParams]

/-- C2: for a successful real-estate computation with a positive holding
period, the cash-flow sequence is the negated initial investment followed by
the constant annual cash flow for every year, with only the last entry
augmented by the equity at sale, so its length is the holding period plus
one; the four per-year sequences all have length exactly the holding
period. -/
theorem claim2_sequence_shapes (p : InvestmentParameters) (r : RealEstateResults)
    (h : calculate_real_estate_investment p = Except.ok r)
    (hn : 0 < p.holding_period_years) :
    r.cash_flows.length = p.holding_period_years + 1 ∧
      r.cash_flows =
        -r.initial_cash_investment ::
          (List.replicate (p.holding_period_years - 1) r.annual_cash_flow ++
            [r.annual_cash_flow + r.equity_at_sale]) ∧
      r.property_value_list.length = p.holding_period_years ∧
      r.mortgage_balance_list.length = p.holding_period_years ∧
      r.equity_list.length = p.holding_period_years ∧
      r.annual_cash_flow_list.length = p.holding_period_years := by
  obtain ⟨⟨hd, hi, hn0⟩, rfl⟩ := calc_re_inv p r h
  refine ⟨?_, rfl, by simp, by simp, by simp, by simp⟩
  simp [reCashFlows]
  omega

/-- C3: for a successful real-estate computation, each recorded property
value compounds the purchase price by the appreciation rate, the recorded
mortgage balances follow the annualized recurrence
`balance_y = balance_(y-1) * (1 + r) ^ 12 - 12 * M` from the loan amount,
recorded equity is property value minus mortgage balance, and the equity at
sale is the final property value minus the final mortgage balance minus the
percentage selling costs. -/
theorem claim3_per_year_recurrences (p : InvestmentParameters) (r : RealEstateResults)
    (h : calculate_real_estate_investment p = Except.ok r)
    (_hn : 0 < p.holding_period_years) :
    (∀ y < p.holding_period_years,
        r.property_value_list.getD y 0 =
          p.purchase_price * (1 + p.appreciation_rate / 100) ^ (y + 1)) ∧
      mortgage_balance p 0 = loan_amount p ∧
      (∀ y, mortgage_balance p (y + 1) =
          mortgage_balance p y * (1 + monthly_interest_rate p) ^ (12 : ℕ) - 12 * M p) ∧
      (∀ y < p.holding_period_years,
        r.mortgage_balance_list.getD y 0 = mortgage_balance p (y + 1)) ∧
      (∀ y < p.holding_period_years,
        r.equity_list.getD y 0 =
          r.property_value_list.getD y 0 - r.mortgage_balance_list.getD y 0) ∧
      r.equity_at_sale =
        property_value p p.holding_period_years - mortgage_balance p p.holding_period_years -
          property_value p p.holding_period_years * p.selling_costs_percent / 100 := by
  obtain ⟨⟨hd, hi, hn0⟩, rfl⟩ := calc_re_inv p r h
  refine ⟨?_, rfl, ?_, ?_, ?_, rfl⟩
  · intro y hy
    rw [getD_map_range _ hy]
    rfl
  · intro y
    simp [mortgage_balance, mul_comm]
  · intro y hy
    rw [getD_map_range _ hy]
  · intro y hy
    rw [getD_map_range _ hy, getD_map_range _ hy, getD_map_range _ hy]

/-- C4: the annual cash flow is the rental income net of percentage
operating expenses minus the annual mortgage payment, computed once; every
entry of the per-year cash-flow list is this same constant; at the default
parameters the initial cash investment is exactly 75000, the annual cash
flow is within 0.1 of 3050.4, and the cash-on-cash return is within 0.01 of
4.07. -/
theorem claim4_cash_flow_constant (p : InvestmentParameters) (r : RealEstateResults)
    (h : calculate_real_estate_investment p = Except.ok r) :
    annual_cash_flow p =
        p.monthly_rental_income * 12 * (1 - p.operating_expenses_percent / 100) -
          annual_mortgage_payment p ∧
      r.annual_cash_flow = annual_cash_flow p ∧
      r.annual_cash_flow_list = List.replicate p.holding_period_years r.annual_cash_flow ∧
      cash_on_cash_return p = annual_cash_flow p / initial_cash_investment p * 100 ∧
      initial_cash_investment defaultParams = 75000 ∧
      annual_cash_flow defaultParams - 30504 / 10 < 1 / 10 ∧
      -(1 / 10) < annual_cash_flow defaultParams - 30504 / 10 ∧
      cash_on_cash_return defaultParams - 407 / 100 < 1 / 100 ∧
      -(1 / 100) < cash_on_cash_return defaultParams - 407 / 100 := by
  obtain ⟨⟨hd, hi, hn0⟩, rfl⟩ := calc_re_inv p r h
  refine ⟨?_, rfl, rfl, rfl, ?_, ?_, ?_, ?_, ?_⟩
  · simp only [annual_cash_flow, NOI, annual_rental_income, operating_expenses]
    ring
  · norm_num [initial_cash_investment, down_payment, closing_costs, defaultParams]
  · norm_num [annual_cash_flow, NOI, annual_rental_income, operating_expenses,
      annual_mortgage_payment, M, loan_amount, down_payment, monthly_interest_rate,
      number_of_payments, defaultParams]
  · norm_num [annual_cash_flow, NOI, annual_rental_income, operating_expenses,
      annual_mortgage_payment, M, loan_amount, down_payment, monthly_interest_rate,
      number_of_payments, defaultParams]
  · norm_num [cash_on_cash_return, initial_cash_investment, closing_costs, annual_cash_flow,
      NOI, annual_rental_income, operating_expenses, annual_mortgage_payment, M, loan_amount,
      down_payment, monthly_interest_rate, number_of_payments, defaultParams]
  · norm_num [cash_on_cash_return, initial_cash_investment, closing_costs, annual_cash_flow,
      NOI, annual_rental_income, operating_expenses, annual_mortgage_payment, M, loan_amount,
      down_payment, monthly_interest_rate, number_of_payments, defaultParams]

lemma portfolio_value_succ (p : InvestmentParameters) (y : ℕ) :
    portfolio_value p (y + 1) =
      portfolio_value p y + portfolio_value p y * p.expected_annual_return_rate / 100 := by
  simp only [portfolio_value, pow_succ]
  ring

/-- C5: the stock model starts its portfolio sequence at the initial
investment, each year records a dollar return equal to the previous
portfolio value times the expected return rate and adds it to the portfolio
(equivalently, compound growth), the sequences have lengths
`holding + 1` and `holding`, and the cash flows are the negated initial
investment followed by the annual returns. -/
theorem claim5_stock_model (p : InvestmentParameters)
    (_hn : 0 < p.holding_period_years) :
    (calculate_stock_investment p).portfolio_values.length = p.holding_period_years + 1 ∧
      (calculate_stock_investment p).annual_returns.length = p.holding_period_years ∧
      (calculate_stock_investment p).portfolio_values.getD 0 0 =
        p.initial_stock_investment ∧
      (∀ y ≤ p.holding_period_years,
        (calculate_stock_investment p).portfolio_values.getD y 0 =
          p.initial_stock_investment * (1 + p.expected_annual_return_rate / 100) ^ y) ∧
      (∀ y < p.holding_period_years,
        (calculate_stock_investment p).annual_returns.getD y 0 =
          (calculate_stock_investment p).portfolio_values.getD y 0 *
            p.expected_annual_return_rate / 100 ∧
        (calculate_stock_investment p).portfolio_values.getD (y + 1) 0 =
          (calculate_stock_investment p).portfolio_values.getD y 0 +
            (calculate_stock_investment p).annual_returns.getD y 0) ∧
      (calculate_stock_investment p).cash_flows =
        -p.initial_stock_investment :: (calculate_stock_investment p).annual_returns := by
  have hpv : (calculate_stock_investment p).portfolio_values =
      (List.range (p.holding_period_years + 1)).map (portfolio_value p) := by
    simp [calculate_stock_investment, stockLoop_eq]
  have har : (calculate_stock_investment p).annual_returns =
      (List.range p.holding_period_years).map (stock_annual_return p) := by
    simp [calculate_stock_investment, stockLoop_eq]
  refine ⟨?_, ?_, ?_, ?_, ?_, rfl⟩
  · simp [hpv]
  · simp [har]
  · rw [hpv, getD_map_range _ (Nat.succ_pos _)]
    simp [portfolio_value]
  · intro y hy
    rw [hpv, getD_map_range _ (Nat.lt_succ_of_le hy)]
    rfl
  · intro y hy
    constructor
    · rw [har, getD_map_range _ hy, hpv, getD_map_range _ (Nat.lt_succ_of_lt hy)]
      rfl
    · rw [hpv, har, getD_map_range _ (Nat.succ_lt_succ hy), getD_map_range _ (Nat.lt_succ_of_lt hy),
        getD_map_range _ hy]
      exact portfolio_value_succ p y

/-- C6: both models' NPV is the standard discounted sum of their cash-flow
sequences, in both cases at discount rate `expected_annual_return_rate / 100`
(the stock model's own expected return, reused by the real-estate model). -/
theorem claim6_npv_discounting (p : InvestmentParameters) (r : RealEstateResults)
    (h : calculate_real_estate_investment p = Except.ok r) :
    r.NPV =
        ∑ t ∈ Finset.range r.cash_flows.length,
          r.cash_flows.getD t 0 / (1 + p.expected_annual_return_rate / 100) ^ t ∧
      (calculate_stock_investment p).NPV =
        ∑ t ∈ Finset.range (calculate_stock_investment p).cash_flows.length,
          (calculate_stock_investment p).cash_flows.getD t 0 /
            (1 + p.expected_annual_return_rate / 100) ^ t := by
  obtain ⟨_, rfl⟩ := calc_re_inv p r h
  exact ⟨npv_eq_sum _ _, npv_eq_sum _ _⟩

/-- C10: with a zero holding period the real-estate computation never
returns a result — the loop produces empty per-year lists and indexing the
empty cash-flow list raises `IndexError` (when the two earlier
division-by-zero guards do not fire first) — while the stock computation
returns a singleton portfolio sequence, no annual returns, and a singleton
cash-flow list. -/
theorem claim10_zero_holding_period (p : InvestmentParameters)
    (h0 : p.holding_period_years = 0) :
    (∀ r, calculate_real_estate_investment p ≠ Except.ok r) ∧
      ((1 + monthly_interest_rate p) ^ number_of_payments p - 1 ≠ 0 →
        initial_cash_investment p ≠ 0 →
        calculate_real_estate_investment p = Except.error PyError.indexError) ∧
      (reLoop p p.holding_period_years).property_value_list = [] ∧
      (reLoop p p.holding_period_years).annual_cash_flow_list = [] ∧
      (calculate_stock_investment p).portfolio_values = [p.initial_stock_investment] ∧
      (calculate_stock_investment p).annual_returns = [] ∧
      (calculate_stock_investment p).cash_flows = [-p.initial_stock_investment] := by
  refine ⟨?_, ?_, ?_, ?_, ?_, ?_, ?_⟩
  · intro r hr
    exact (calc_re_inv p r hr).1.2.2 h0
  · intro hd hi
    simp [calculate_real_estate_investment, hd, hi, h0, reLoop, reState0]
  · simp [h0, reLoop, reState0]
  · simp [h0, reLoop, reState0]
  · simp [calculate_stock_investment, h0, stockLoop]
  · simp [calculate_stock_investment, h0, stockLoop]
  · simp [calculate_stock_investment, h0, stockLoop]

/-! ### Concrete evaluation inputs -/

/-- A parameter set with small exact values:
12% monthly interest makes `(1 + r) ^ 12 = 4096`, the 4095 purchase price
makes the monthly payment exactly 4096. -/
def pW : InvestmentParameters where
  purchase_price := 4095
  down_payment_percent := 0
  annual_interest_rate := 1200
  loan_term_years := 1
  monthly_rental_income := 0
  operating_expenses_percent := 0
  appreciation_rate := 0
  closing_costs_percent := 100
  selling_costs_percent := 0
  holding_period_years := 1
  initial_stock_investment := 100
  expected_annual_return_rate := 8
  std_dev_stocks := 15
  inflation_rate := 2

/-- The real-estate results at `pW`, computed by hand. -/
def rW : RealEstateResults where
  annual_cash_flow := -49152
  initial_cash_investment := 4095
  cash_on_cash_return := -327680 / 273
  equity_at_sale := -16719873
  NPV := -15530970
  equity_list := [-16719873]
  property_value_list := [4095]
  mortgage_balance_list := [16723968]
  annual_cash_flow_list := [-49152]
  cash_flows := [-4095, -16769025]

lemma mortgage_balance_one (p : InvestmentParameters) :
    mortgage_balance p 1 =
      loan_amount p * (1 + monthly_interest_rate p) ^ (12 : ℕ) - M p * 12 := rfl

lemma pW_calc : calculate_real_estate_investment pW = Except.ok rW := by
  have hd : (1 + monthly_interest_rate pW) ^ number_of_payments pW - 1 ≠ 0 := by
    norm_num [monthly_interest_rate, number_of_payments, pW]
  have hi : initial_cash_investment pW ≠ 0 := by
    norm_num [initial_cash_investment, down_payment, closing_costs, pW]
  have hn : pW.holding_period_years ≠ 0 := by norm_num [pW]
  rw [calc_re_ok pW hd hi hn]
  have hhold : pW.holding_period_years = 1 := rfl
  have hM : M pW = 4096 := by
    norm_num [M, loan_amount, down_payment, monthly_interest_rate, number_of_payments, pW]
  have hamp : annual_mortgage_payment pW = 49152 := by
    rw [annual_mortgage_payment, hM]
    norm_num
  have hacf : annual_cash_flow pW = -49152 := by
    rw [annual_cash_flow, NOI, annual_rental_income, operating_expenses, hamp]
    norm_num [pW]
  have hicc : initial_cash_investment pW = 4095 := by
    norm_num [initial_cash_investment, down_payment, closing_costs, pW]
  have hpv : property_value pW 1 = 4095 := by
    norm_num [property_value, pW]
  have hmb : mortgage_balance pW 1 = 16723968 := by
    rw [mortgage_balance_one, hM]
    norm_num [loan_amount, down_payment, monthly_interest_rate, pW]
  have heas : equity_at_sale pW = -16719873 := by
    rw [equity_at_sale, selling_costs, hhold, hpv, hmb]
    norm_num [pW]
  have hcfs : reCashFlows pW = [-4095, -16769025] := by
    rw [reCashFlows, hhold, hacf, hicc, heas]
    norm_num
  have hrange : List.range 1 = [0] := rfl
  simp [rW, hhold, hrange, hacf, hicc, heas, hcfs, hpv, hmb]
  constructor
  · rw [cash_on_cash_return, hacf, hicc]
    norm_num
  · norm_num [npv, npvAux, pW]

theorem claim1_amortization_witness :
    loan_amount defaultParams =
        defaultParams.purchase_price -
          defaultParams.purchase_price * defaultParams.down_payment_percent / 100 ∧
      monthly_interest_rate defaultParams = defaultParams.annual_interest_rate / 12 / 100 ∧
      number_of_payments defaultParams = defaultParams.loan_term_years * 12 ∧
      (1 + monthly_interest_rate defaultParams) ^ number_of_payments defaultParams - 1 ≠ 0 ∧
      M defaultParams =
        loan_amount defaultParams *
            (monthly_interest_rate defaultParams *
              (1 + monthly_interest_rate defaultParams) ^ number_of_payments defaultParams) /
          ((1 + monthly_interest_rate defaultParams) ^ number_of_payments defaultParams - 1) ∧
      annual_mortgage_payment defaultParams = 12 * M defaultParams ∧
      loan_amount defaultParams = 240000 ∧
      M defaultParams - 5729 / 5 < 1 / 100 ∧ -(1 / 100) < M defaultParams - 5729 / 5 :=
  claim1_amortization defaultParams (by norm_num [defaultParams]) (by norm_num [defaultParams])

theorem claim2_sequence_shapes_witness :
    rW.cash_flows.length = pW.holding_period_years + 1 ∧
      rW.cash_flows =
        -rW.initial_cash_investment ::
          (List.replicate (pW.holding_period_years - 1) rW.annual_cash_flow ++
            [rW.annual_cash_flow + rW.equity_at_sale]) ∧
      rW.property_value_list.length = pW.holding_period_years ∧
      rW.mortgage_balance_list.length = pW.holding_period_years ∧
      rW.equity_list.length = pW.holding_period_years ∧
      rW.annual_cash_flow_list.length = pW.holding_period_years :=
  claim2_sequence_shapes pW rW pW_calc (by norm_num [pW])

theorem claim3_per_year_recurrences_witness :
    (∀ y < pW.holding_period_years,
        rW.property_value_list.getD y 0 =
          pW.purchase_price * (1 + pW.appreciation_rate / 100) ^ (y + 1)) ∧
      mortgage_balance pW 0 = loan_amount pW ∧
      (∀ y, mortgage_balance pW (y + 1) =
          mortgage_balance pW y * (1 + monthly_interest_rate pW) ^ (12 : ℕ) - 12 * M pW) ∧
      (∀ y < pW.holding_period_years,
        rW.mortgage_balance_list.getD y 0 = mortgage_balance pW (y + 1)) ∧
      (∀ y < pW.holding_period_years,
        rW.equity_list.getD y 0 =
          rW.property_value_list.getD y 0 - rW.mortgage_balance_list.getD y 0) ∧
      rW.equity_at_sale =
        property_value pW pW.holding_period_years -
            mortgage_balance pW pW.holding_period_years -
          property_value pW pW.holding_period_years * pW.selling_costs_percent / 100 :=
  claim3_per_year_recurrences pW rW pW_calc (by norm_num [pW])

theorem claim4_cash_flow_constant_witness :
    annual_cash_flow pW =
        pW.monthly_rental_income * 12 * (1 - pW.operating_expenses_percent / 100) -
          annual_mortgage_payment pW ∧
      rW.annual_cash_flow = annual_cash_flow pW ∧
      rW.annual_cash_flow_list = List.replicate pW.holding_period_years rW.annual_cash_flow ∧
      cash_on_cash_return pW = annual_cash_flow pW / initial_cash_investment pW * 100 ∧
      initial_cash_investment defaultParams = 75000 ∧
      annual_cash_flow defaultParams - 30504 / 10 < 1 / 10 ∧
      -(1 / 10) < annual_cash_flow defaultParams - 30504 / 10 ∧
      cash_on_cash_return defaultParams - 407 / 100 < 1 / 100 ∧
      -(1 / 100) < cash_on_cash_return defaultParams - 407 / 100 :=
  claim4_cash_flow_constant pW rW pW_calc

theorem claim5_stock_model_witness :
    (calculate_stock_investment pW).portfolio_values.length = pW.holding_period_years + 1 ∧
      (calculate_stock_investment pW).annual_returns.length = pW.holding_period_years ∧
      (calculate_stock_investment pW).portfolio_values.getD 0 0 =
        pW.initial_stock_investment ∧
      (∀ y ≤ pW.holding_period_years,
        (calculate_stock_investment pW).portfolio_values.getD y 0 =
          pW.initial_stock_investment * (1 + pW.expected_annual_return_rate / 100) ^ y) ∧
      (∀ y < pW.holding_period_years,
        (calculate_stock_investment pW).annual_returns.getD y 0 =
          (calculate_stock_investment pW).portfolio_values.getD y 0 *
            pW.expected_annual_return_rate / 100 ∧
        (calculate_stock_investment pW).portfolio_values.getD (y + 1) 0 =
          (calculate_stock_investment pW).portfolio_values.getD y 0 +
            (calculate_stock_investment pW).annual_returns.getD y 0) ∧
      (calculate_stock_investment pW).cash_flows =
        -pW.initial_stock_investment :: (calculate_stock_investment pW).annual_returns :=
  claim5_stock_model pW (by norm_num [pW])

theorem claim6_npv_discounting_witness :
    rW.NPV =
        ∑ t ∈ Finset.range rW.cash_flows.length,
          rW.cash_flows.getD t 0 / (1 + pW.expected_annual_return_rate / 100) ^ t ∧
      (calculate_stock_investment pW).NPV =
        ∑ t ∈ Finset.range (calculate_stock_investment pW).cash_flows.length,
          (calculate_stock_investment pW).cash_flows.getD t 0 /
            (1 + pW.expected_annual_return_rate / 100) ^ t :=
  claim6_npv_discounting pW rW pW_calc

/-- `pW` with a zero holding period. -/
def pW0 : InvestmentParameters :=
  { pW with holding_period_years := 0 }

theorem claim10_zero_holding_period_witness :
    (∀ r, calculate_real_estate_investment pW0 ≠ Except.ok r) ∧
      ((1 + monthly_interest_rate pW0) ^ number_of_payments pW0 - 1 ≠ 0 →
        initial_cash_investment pW0 ≠ 0 →
        calculate_real_estate_investment pW0 = Except.error PyError.indexError) ∧
      (reLoop pW0 pW0.holding_period_years).property_value_list = [] ∧
      (reLoop pW0 pW0.holding_period_years).annual_cash_flow_list = [] ∧
      (calculate_stock_investment pW0).portfolio_values = [pW0.initial_stock_investment] ∧
      (calculate_stock_investment pW0).annual_returns = [] ∧
      (calculate_stock_investment pW0).cash_flows = [-pW0.initial_stock_investment] :=
  claim10_zero_holding_period pW0 rfl

/-- The default parameters with a zero mortgage interest rate. -/
def pZeroRate : InvestmentParameters :=
  { defaultParams with annual_interest_rate := 0 }

/-- C7 counterexample: at a zero mortgage interest rate the computation
raises `ZeroDivisionError` (the amortization denominator is exactly zero);
it does not detect the case and return a sentinel "undefined" result. -/
theorem claim7_counterexample :
    calculate_real_estate_investment pZeroRate = Except.error PyError.zeroDivisionError := by
  have h : (1 + monthly_interest_rate pZeroRate) ^ number_of_payments pZeroRate - 1 = 0 := by
    norm_num [monthly_interest_rate, number_of_payments, pZeroRate, defaultParams]
  simp [calculate_real_estate_investment, h]

/-- C7 (amended): the core performs no zero-denominator detection.  A zero
mortgage interest rate zeroes the amortization denominator and the
computation fails with a division-by-zero error; so does a zero initial
cash investment (when the amortization denominator is fine), a zero IRR in
the real-estate coefficient of variation, and a zero expected return in the
stock coefficient of variation.  No sentinel "undefined" value is
produced. -/
theorem claim7_amended_division_errors (p : InvestmentParameters) :
    (p.annual_interest_rate = 0 →
        calculate_real_estate_investment p = Except.error PyError.zeroDivisionError) ∧
      ((1 + monthly_interest_rate p) ^ number_of_payments p - 1 ≠ 0 →
        initial_cash_investment p = 0 →
        calculate_real_estate_investment p = Except.error PyError.zeroDivisionError) ∧
      (∀ std_dev : ℚ, CV_real_estate std_dev 0 = Except.error PyError.zeroDivisionError) ∧
      (p.expected_annual_return_rate = 0 →
        CV_stocks p = Except.error PyError.zeroDivisionError) := by
  refine ⟨?_, ?_, ?_, ?_⟩
  · intro h0
    have hd : (1 + monthly_interest_rate p) ^ number_of_payments p - 1 = 0 := by
      simp [monthly_interest_rate, h0]
    simp [calculate_real_estate_investment, hd]
  · intro hd hi
    simp [calculate_real_estate_investment, hd, hi]
  · intro std_dev
    simp [CV_real_estate, expected_return_real_estate]
  · intro h
    simp [CV_stocks, h]

theorem claim7_amended_division_errors_witness :
    calculate_real_estate_investment pZeroRate = Except.error PyError.zeroDivisionError ∧
      CV_real_estate 4 0 = Except.error PyError.zeroDivisionError ∧
      CV_stocks { defaultParams with expected_annual_return_rate := 0 } =
        Except.error PyError.zeroDivisionError :=
  ⟨(claim7_amended_division_errors pZeroRate).1 (by norm_num [pZeroRate, defaultParams]),
    (claim7_amended_division_errors pZeroRate).2.2.1 4,
    (claim7_amended_division_errors
        { defaultParams with expected_annual_return_rate := 0 }).2.2.2
      (by norm_num [defaultParams])⟩

/-- C8 counterexample: at `pW` the real-estate annual cash flow is negative,
yet the stock payback period neither fails nor is undefined: it is the
well-defined positive number `25 / 2`. -/
theorem claim8_counterexample :
    annual_cash_flow pW < 0 ∧
      payback_period_stock pW = Except.ok (25 / 2) ∧ (0 : ℚ) < 25 / 2 := by
  refine ⟨?_, ?_, by norm_num⟩
  · norm_num [annual_cash_flow, NOI, annual_rental_income, operating_expenses,
      annual_mortgage_payment, M, loan_amount, down_payment, monthly_interest_rate,
      number_of_payments, pW]
  · norm_num [payback_period_stock, annual_return_stock, pW]

/-- C8 (amended): the derived metrics compute the stated formulas — with the
caveat that the real-estate payback is the one that fails (division by zero)
at zero annual cash flow and is merely negative at negative annual cash
flow, while the stock payback does not depend on the annual cash flow at
all and fails exactly when `initial_stock_investment * expected_return / 100`
is zero. -/
theorem claim8_amended_derived_metrics (std_dev irr icc acf : ℚ) (p : InvestmentParameters) :
    (irr * 100 ≠ 0 → CV_real_estate std_dev irr = Except.ok (std_dev / (irr * 100))) ∧
      (p.expected_annual_return_rate ≠ 0 →
        CV_stocks p = Except.ok (p.std_dev_stocks / p.expected_annual_return_rate)) ∧
      real_return_real_estate irr p = irr * 100 - p.inflation_rate ∧
      real_return_stocks p = p.expected_annual_return_rate - p.inflation_rate ∧
      (acf ≠ 0 → payback_period_real_estate icc acf = Except.ok (icc / acf)) ∧
      (acf = 0 →
        payback_period_real_estate icc acf = Except.error PyError.zeroDivisionError) ∧
      (acf < 0 → 0 < icc → icc / acf < 0) ∧
      annual_return_stock p = p.initial_stock_investment * p.expected_annual_return_rate / 100 ∧
      (annual_return_stock p ≠ 0 →
        payback_period_stock p =
          Except.ok (p.initial_stock_investment / annual_return_stock p)) ∧
      (annual_return_stock p = 0 →
        payback_period_stock p = Except.error PyError.zeroDivisionError) := by
  refine ⟨?_, ?_, rfl, rfl, ?_, ?_, ?_, rfl, ?_, ?_⟩
  · intro h
    simp [CV_real_estate, expected_return_real_estate, h]
  · intro h
    simp [CV_stocks, h]
  · intro h
    simp [payback_period_real_estate, h]
  · intro h
    simp [payback_period_real_estate, h]
  · intro hacf hicc
    exact div_neg_of_pos_of_neg hicc hacf
  · intro h
    simp [payback_period_stock, h]
  · intro h
    simp [payback_period_stock, h]

theorem claim8_amended_derived_metrics_witness :
    CV_real_estate 4 (1 / 10) = Except.ok (4 / (1 / 10 * 100)) ∧
      CV_stocks defaultParams =
        Except.ok (defaultParams.std_dev_stocks / defaultParams.expected_annual_return_rate) ∧
      payback_period_real_estate 75000 (-1) = Except.ok (75000 / (-1)) ∧
      payback_period_real_estate 75000 0 = Except.error PyError.zeroDivisionError ∧
      (75000 : ℚ) / (-1) < 0 ∧
      payback_period_stock defaultParams =
        Except.ok (defaultParams.initial_stock_investment / annual_return_stock defaultParams) :=
  ⟨(claim8_amended_derived_metrics 4 (1 / 10) 75000 (-1) defaultParams).1 (by norm_num),
    (claim8_amended_derived_metrics 4 (1 / 10) 75000 (-1) defaultParams).2.1
      (by norm_num [defaultParams]),
    (claim8_amended_derived_metrics 4 (1 / 10) 75000 (-1) defaultParams).2.2.2.2.1
      (by norm_num),
    (claim8_amended_derived_metrics 4 (1 / 10) 75000 0 defaultParams).2.2.2.2.2.1 rfl,
    (claim8_amended_derived_metrics 4 (1 / 10) 75000 (-1) defaultParams).2.2.2.2.2.2.1
      (by norm_num) (by norm_num),
    (claim8_amended_derived_metrics 4 (1 / 10) 75000 (-1) defaultParams).2.2.2.2.2.2.2.2.1
      (by norm_num [annual_return_stock, defaultParams])⟩

/-! ### The IRR model (C9)

`numpy_financial.irr`, called on lines 95 and 126, is an external library
routine, not part of this repository.  Modelled from the spec: the IRR is a
discount rate that zeroes the NPV of the cash-flow sequence, obtained by
root-finding when the sequence has exactly one sign change, and failing
(undefined) when the flows have no sign change.  The model works over ℝ,
where such a root exists. -/

/-- The value of the cash-flow polynomial `sum cf[t] * x ^ t`; `npv rate cf`
equals it at `x = (1 + rate)⁻¹`. -/
def npvPoly (cf : List ℝ) (x : ℝ) : ℝ :=
  ∑ t ∈ Finset.range cf.length, cf.getD t 0 * x ^ t

lemma npv_eq_npvPoly (rate : ℝ) (cf : List ℝ) :
    npv rate cf = npvPoly cf (1 + rate)⁻¹ := by
  rw [npv_eq_sum, npvPoly]
  refine Finset.sum_congr rfl fun t ht => ?_
  rw [div_eq_mul_inv, inv_pow]

/-- Exactly one sign change with the negative block first: a split index
`k` before which all flows are nonpositive (at least one negative) and from
which on all flows are nonnegative (at least one positive). -/
def oneSignChangeNP (cf : List ℝ) : Prop :=
  ∃ k : ℕ, (∀ t < k, cf.getD t 0 ≤ 0) ∧ (∀ t, k ≤ t → 0 ≤ cf.getD t 0) ∧
    (∃ t < k, cf.getD t 0 < 0) ∧ ∃ t, k ≤ t ∧ 0 < cf.getD t 0

/-- Exactly one sign change, in either orientation. -/
def oneSignChange (cf : List ℝ) : Prop :=
  oneSignChangeNP cf ∨ oneSignChangeNP (cf.map fun c => -c)

/-- No sign change: all flows on one side of zero. -/
def noSignChange (cf : List ℝ) : Prop :=
  (∀ t : ℕ, 0 ≤ cf.getD t 0) ∨ ∀ t : ℕ, cf.getD t 0 ≤ 0

lemma getD_eq_zero_of_le {cf : List ℝ} {t : ℕ} (h : cf.length ≤ t) : cf.getD t 0 = 0 := by
  simp [List.getD_eq_getElem?_getD, List.getElem?_eq_none h]

lemma npvPoly_continuous (cf : List ℝ) : Continuous fun x => npvPoly cf x := by
  simp only [npvPoly]
  exact continuous_finset_sum _ fun i _ => continuous_const.mul (continuous_pow i)

lemma npvPoly_map_neg (cf : List ℝ) (x : ℝ) :
    npvPoly (cf.map fun c => -c) x = -npvPoly cf x := by
  rw [npvPoly, npvPoly, List.length_map, ← Finset.sum_neg_distrib]
  refine Finset.sum_congr rfl fun t ht => ?_
  have hg : (cf.map fun c => -c).getD t 0 = -(cf.getD t 0) := by
    cases h : cf[t]? <;>
      simp [List.getD_eq_getElem?_getD, List.getElem?_map, h]
  rw [hg, neg_mul]

/-- With one sign change (negative block first) the cash-flow polynomial
has a positive root: it is negative near `0` and positive for large `x`. -/
lemma npvPoly_root_of_NP (cf : List ℝ) (h : oneSignChangeNP cf) :
    ∃ x : ℝ, 0 < x ∧ npvPoly cf x = 0 := by
  obtain ⟨k, hnonpos, hnonneg, ⟨tn, htnk, htn⟩, ⟨tp, hktp, htp⟩⟩ := h
  have htp_lt : tp < cf.length := by
    by_contra hge
    rw [getD_eq_zero_of_le (le_of_not_lt hge)] at htp
    exact lt_irrefl 0 htp
  have hk_pos : 0 < k := by
    rcases Nat.eq_zero_or_pos k with rfl | hk
    · exact absurd htnk (Nat.not_lt_zero tn)
    · exact hk
  have hkn : k ≤ cf.length := le_of_lt (lt_of_le_of_lt hktp htp_lt)
  -- a large evaluation point where the polynomial is positive
  obtain ⟨x₁, hx₁_pos, hx₁_ge1, hgx₁⟩ :
      ∃ x₁ : ℝ, 0 < x₁ ∧ 1 ≤ x₁ ∧ 0 < npvPoly cf x₁ := by
    set C := ∑ t ∈ Finset.range k, |cf.getD t 0| with hC
    have hC_nonneg : 0 ≤ C := Finset.sum_nonneg fun t ht => abs_nonneg _
    set c := cf.getD tp 0 with hc
    set x₁ := max 1 ((C + 1) / c) with hx₁
    have hx₁_ge1 : (1 : ℝ) ≤ x₁ := le_max_left _ _
    have hx₁_pos : (0 : ℝ) < x₁ := lt_of_lt_of_le one_pos hx₁_ge1
    have key1 : C + 1 ≤ c * x₁ := by
      have h1 : (C + 1) / c ≤ x₁ := le_max_right _ _
      have h2 : c * ((C + 1) / c) = C + 1 := by
        field_simp
      calc C + 1 = c * ((C + 1) / c) := h2.symm
        _ ≤ c * x₁ := mul_le_mul_of_nonneg_left h1 (le_of_lt htp)
    have hlow : -(C * x₁ ^ (tp - 1)) ≤ ∑ t ∈ Finset.range k, cf.getD t 0 * x₁ ^ t := by
      have hterm : ∀ t ∈ Finset.range k,
          -(|cf.getD t 0| * x₁ ^ (tp - 1)) ≤ cf.getD t 0 * x₁ ^ t := by
        intro t ht
        have ht_le : t ≤ tp - 1 := by
          have := Finset.mem_range.mp ht
          omega
        have h1 : |cf.getD t 0| * x₁ ^ t ≤ |cf.getD t 0| * x₁ ^ (tp - 1) :=
          mul_le_mul_of_nonneg_left (pow_le_pow_right₀ hx₁_ge1 ht_le) (abs_nonneg _)
        have h2 : -(|cf.getD t 0| * x₁ ^ t) ≤ cf.getD t 0 * x₁ ^ t := by
          have h3 := mul_le_mul_of_nonneg_right (neg_abs_le (cf.getD t 0))
            (pow_nonneg (le_of_lt hx₁_pos) t)
          calc -(|cf.getD t 0| * x₁ ^ t) = -|cf.getD t 0| * x₁ ^ t := by ring
            _ ≤ cf.getD t 0 * x₁ ^ t := h3
        linarith
      have hsum : ∑ t ∈ Finset.range k, -(|cf.getD t 0| * x₁ ^ (tp - 1)) =
          -(C * x₁ ^ (tp - 1)) := by
        rw [Finset.sum_neg_distrib, ← Finset.sum_mul]
      calc -(C * x₁ ^ (tp - 1)) = ∑ t ∈ Finset.range k, -(|cf.getD t 0| * x₁ ^ (tp - 1)) :=
            hsum.symm
        _ ≤ ∑ t ∈ Finset.range k, cf.getD t 0 * x₁ ^ t := Finset.sum_le_sum hterm
    have hhigh : c * x₁ ^ tp ≤ ∑ t ∈ Finset.Ico k cf.length, cf.getD t 0 * x₁ ^ t := by
      refine Finset.single_le_sum (f := fun t => cf.getD t 0 * x₁ ^ t) ?_ ?_
      · intro i hi
        exact mul_nonneg (hnonneg i (Finset.mem_Ico.mp hi).1)
          (pow_nonneg (le_of_lt hx₁_pos) i)
      · exact Finset.mem_Ico.mpr ⟨hktp, htp_lt⟩
    have hge : -(C * x₁ ^ (tp - 1)) + c * x₁ ^ tp ≤ npvPoly cf x₁ := by
      rw [npvPoly, ← Finset.sum_range_add_sum_Ico _ hkn]
      exact add_le_add hlow hhigh
    have hpos : 0 < -(C * x₁ ^ (tp - 1)) + c * x₁ ^ tp := by
      have hfac : (0 : ℝ) < x₁ ^ (tp - 1) := pow_pos hx₁_pos _
      have h2 : x₁ ^ tp = x₁ ^ (tp - 1) * x₁ := by
        conv_lhs => rw [show tp = (tp - 1) + 1 by omega]
        rw [pow_succ]
      rw [h2]
      nlinarith
    exact ⟨x₁, hx₁_pos, hx₁_ge1, lt_of_lt_of_le hpos hge⟩
  -- a small positive evaluation point where the polynomial is negative
  obtain ⟨ε, hε_pos, hε_lt, hgε⟩ : ∃ ε : ℝ, 0 < ε ∧ ε < x₁ ∧ npvPoly cf ε < 0 := by
    have hne : ∃ t, cf.getD t 0 ≠ 0 := ⟨tn, ne_of_lt htn⟩
    haveI : DecidablePred fun t => cf.getD t 0 ≠ 0 := fun t => Classical.dec _
    set j := Nat.find hne with hj_def
    have hj_ne : cf.getD j 0 ≠ 0 := Nat.find_spec hne
    have hj_min : ∀ t < j, cf.getD t 0 = 0 := fun t ht => by
      simpa using Nat.find_min hne ht
    have hj_lt_k : j < k := lt_of_le_of_lt (Nat.find_min' hne (ne_of_lt htn)) htnk
    have hjneg : cf.getD j 0 < 0 := lt_of_le_of_ne (hnonpos j hj_lt_k) hj_ne
    have hjn : j < cf.length := lt_of_lt_of_le hj_lt_k hkn
    set q := fun x : ℝ => ∑ s ∈ Finset.range (cf.length - j), cf.getD (j + s) 0 * x ^ s
      with hq_def
    have factor : ∀ x : ℝ, npvPoly cf x = x ^ j * q x := by
      intro x
      rw [npvPoly, ← Finset.sum_range_add_sum_Ico _ (le_of_lt hjn)]
      have hz : ∑ t ∈ Finset.range j, cf.getD t 0 * x ^ t = 0 :=
        Finset.sum_eq_zero fun t ht => by
          rw [hj_min t (Finset.mem_range.mp ht), zero_mul]
      rw [hz, zero_add, Finset.sum_Ico_eq_sum_range, hq_def, Finset.mul_sum]
      refine Finset.sum_congr rfl fun s hs => ?_
      rw [pow_add]
      ring
    have hq0 : q 0 = cf.getD j 0 := by
      have hq0' : q 0 = ∑ s ∈ Finset.range (cf.length - j), cf.getD (j + s) 0 * (0 : ℝ) ^ s :=
        rfl
      rw [hq0', Finset.sum_eq_single_of_mem 0 (Finset.mem_range.mpr (by omega))
        (fun s hs hs0 => by rw [zero_pow hs0, mul_zero])]
      simp
    have hqcont : Continuous q := by
      rw [hq_def]
      exact continuous_finset_sum _ fun i _ => continuous_const.mul (continuous_pow i)
    have hev1 : ∀ᶠ x in nhds (0 : ℝ), q x < 0 :=
      (hqcont.tendsto 0).eventually_lt_const (by rw [hq0]; exact hjneg)
    have hev2 : ∀ᶠ x in nhds (0 : ℝ), x < x₁ := eventually_lt_nhds hx₁_pos
    have h3 : ∀ᶠ x in nhdsWithin (0 : ℝ) (Set.Ioi 0), (q x < 0 ∧ x < x₁) :=
      (hev1.and hev2).filter_mono nhdsWithin_le_nhds
    have h4 : ∀ᶠ x in nhdsWithin (0 : ℝ) (Set.Ioi 0), x ∈ Set.Ioi (0 : ℝ) :=
      eventually_mem_nhdsWithin
    obtain ⟨ε, ⟨hqε, hεx₁⟩, hε_pos⟩ := (h3.and h4).exists
    refine ⟨ε, hε_pos, hεx₁, ?_⟩
    rw [factor]
    exact mul_neg_of_pos_of_neg (pow_pos hε_pos j) hqε
  have hsub := intermediate_value_Icc (le_of_lt hε_lt) (npvPoly_continuous cf).continuousOn
  have h0mem : (0 : ℝ) ∈ Set.Icc (npvPoly cf ε) (npvPoly cf x₁) :=
    ⟨le_of_lt hgε, le_of_lt hgx₁⟩
  obtain ⟨x₀, hx₀mem, hx₀⟩ := hsub h0mem
  exact ⟨x₀, lt_of_lt_of_le hε_pos hx₀mem.1, hx₀⟩

/-- C9 (IRR modelled from the spec, `numpy_financial.irr` not being
repository code): for any cash-flow sequence with exactly one sign change
there is a rate `r > -1` at which the NPV is exactly zero — hence within
the 1e-6 tolerance — so the root-finding IRR is well defined and
`NPV(cf, IRR(cf)) ≈ 0`; when the flows have no sign change (and are not all
zero) no such rate exists, so the root-finder must fail rather than return
a rate. -/
theorem claim9_irr_root_finding (cf : List ℝ) :
    (oneSignChange cf → ∃ r : ℝ, -1 < r ∧ npv r cf = 0 ∧ |npv r cf| < 1 / 1000000) ∧
      (noSignChange cf → (∃ c ∈ cf, c ≠ 0) → ∀ r : ℝ, -1 < r → npv r cf ≠ 0) := by
  constructor
  · intro hosc
    have hroot : ∃ x : ℝ, 0 < x ∧ npvPoly cf x = 0 := by
      rcases hosc with hnp | hpn
      · exact npvPoly_root_of_NP cf hnp
      · obtain ⟨x, hx_pos, hx⟩ := npvPoly_root_of_NP _ hpn
        rw [npvPoly_map_neg] at hx
        exact ⟨x, hx_pos, neg_eq_zero.mp hx⟩
    obtain ⟨x, hx_pos, hgx⟩ := hroot
    have hinv : (0 : ℝ) < x⁻¹ := inv_pos.mpr hx_pos
    refine ⟨x⁻¹ - 1, by linarith, ?_, ?_⟩
    · rw [npv_eq_npvPoly, show (1 : ℝ) + (x⁻¹ - 1) = x⁻¹ by ring, inv_inv]
      exact hgx
    · rw [npv_eq_npvPoly, show (1 : ℝ) + (x⁻¹ - 1) = x⁻¹ by ring, inv_inv, hgx]
      norm_num
  · rintro hns ⟨c, hc_mem, hc_ne⟩ r hr
    have hy : (0 : ℝ) < (1 + r)⁻¹ := inv_pos.mpr (by linarith)
    obtain ⟨i, hi_lt, hi_eq⟩ := List.getElem_of_mem hc_mem
    have hgetD : cf.getD i 0 = c := by
      simp [List.getD_eq_getElem?_getD, List.getElem?_eq_getElem hi_lt, hi_eq]
    rw [npv_eq_npvPoly]
    rcases hns with hpos | hneg
    · have hlt : 0 < npvPoly cf (1 + r)⁻¹ := by
        rw [npvPoly]
        refine Finset.sum_pos'
          (fun t ht => mul_nonneg (hpos t) (pow_nonneg hy.le t)) ?_
        refine ⟨i, Finset.mem_range.mpr hi_lt, ?_⟩
        have hcpos : 0 < cf.getD i 0 :=
          lt_of_le_of_ne (hpos i) (by rw [hgetD]; exact Ne.symm hc_ne)
        exact mul_pos hcpos (pow_pos hy i)
      exact ne_of_gt hlt
    · have hlt : npvPoly cf (1 + r)⁻¹ < 0 := by
        rw [npvPoly]
        have h0 : 0 < ∑ t ∈ Finset.range cf.length, -(cf.getD t 0 * ((1 + r)⁻¹) ^ t) := by
          refine Finset.sum_pos' (fun t ht => ?_) ⟨i, Finset.mem_range.mpr hi_lt, ?_⟩
          · have h1 := mul_le_mul_of_nonneg_right (hneg t) (pow_nonneg hy.le t)
            rw [zero_mul] at h1
            linarith
          · have hcneg : cf.getD i 0 < 0 :=
              lt_of_le_of_ne (hneg i) (by rw [hgetD]; exact hc_ne)
            have := mul_neg_of_neg_of_pos hcneg (pow_pos hy i)
            linarith
        rw [Finset.sum_neg_distrib] at h0
        linarith
      exact ne_of_lt hlt

theorem claim9_irr_root_finding_witness :
    (∃ r : ℝ, -1 < r ∧ npv r [-1, 2] = 0 ∧ |npv r [-1, 2]| < 1 / 1000000) ∧
      ∀ r : ℝ, -1 < r → npv r [(1 : ℝ), 1] ≠ 0 := by
  constructor
  · refine (claim9_irr_root_finding [-1, 2]).1 (Or.inl ⟨1, ?_, ?_, ⟨0, by norm_num, by norm_num⟩,
      ⟨1, le_refl 1, by norm_num⟩⟩)
    · intro t ht
      have ht0 : t = 0 := by omega
      subst ht0
      norm_num
    · intro t ht
      match t, ht with
      | 1, _ => norm_num
      | t + 2, _ =>
          rw [getD_eq_zero_of_le (by simp)]
  · refine fun r hr => (claim9_irr_root_finding [1, 1]).2 (Or.inl ?_) ⟨1, by norm_num, by
      norm_num⟩ r hr
    intro t
    match t with
    | 0 => norm_num
    | 1 => norm_num
    | t + 2 => rw [getD_eq_zero_of_le (by simp)]

end RentalStock
